import Mathlib

/-!
Shallow embedding of the job-submission gateway's backend adapter layer
(slurmrestd.py, nersc.py, sfapi.py, backend.py): the abstract job model,
the per-backend state mappers, submit/cancel/poll-status adapter
operations (with the backend RPC outcome passed in explicitly and the
number of RPC calls made returned alongside the result), and the
adapter factory.  Python strings are Lean `String`s; `str.upper()` is
modelled by `pyUpper` (ASCII uppercasing, as Lean's `Char.toUpper`);
raised exceptions are `Except.error` carrying the message.
-/

/-- Abstract PSI/J job states (psij `JobState`), including the `UNKNOWN`
sentinel used by the Superfacility mapper's default. -/
inductive JobState : Type where
  | NEW
  | QUEUED
  | ACTIVE
  | COMPLETED
  | FAILED
  | CANCELED
  | UNKNOWN
deriving DecidableEq, Repr

/-- psij `JobStatus`: an abstract state (optional details omitted — no
adapter in the repository populates them). -/
structure JobStatus : Type where
  state : JobState
deriving DecidableEq, Repr

/-- psij `ResourceSpec` (v1) as consumed by the Slurm adapter. -/
structure ResourceSpec : Type where
  node_count : Nat
  process_count : Nat
  processes_per_node : Nat
  cpu_cores_per_process : Nat
  gpu_cores_per_process : Nat
  exclusive_node_use : Bool
deriving DecidableEq, Repr

/-- psij `JobAttributes`: the wall-clock duration, kept in seconds as
`timedelta.total_seconds()` yields it. -/
structure JobAttributes : Type where
  durationSeconds : Nat
deriving DecidableEq, Repr

/-- psij `JobSpec`, restricted to the fields the adapters read. -/
structure JobSpec : Type where
  name : Option String
  executable : Option String
  script : Option String
  directory : Option String
  environment : Option (List (String × String))
  resources : Option ResourceSpec
  attributes : JobAttributes
deriving DecidableEq, Repr

/-- `JobSpec()` with psij defaults (default duration is 10 minutes). -/
def defaultJobSpec : JobSpec :=
  { name := none, executable := none, script := none, directory := none,
    environment := none, resources := none, attributes := ⟨600⟩ }

/-- psij `Job`: optional backend-native id, current status, optional spec. -/
structure Job : Type where
  native_id : Option String
  status : JobStatus
  spec : Option JobSpec
deriving DecidableEq, Repr

/-- Outcome of one backend RPC call, supplied to the adapter operation:
either the decoded response or a raised transport/API exception. -/
inductive RpcOutcome (α : Type) : Type where
  | ok (resp : α)
  | apiError (msg : String)
deriving DecidableEq, Repr

instance (ε α : Type) [DecidableEq ε] [DecidableEq α] : DecidableEq (Except ε α) :=
  fun x y =>
    match x, y with
    | .ok a, .ok b =>
      if h : a = b then .isTrue (by rw [h])
      else .isFalse (fun hc => by cases hc; exact h rfl)
    | .error e, .error f =>
      if h : e = f then .isTrue (by rw [h])
      else .isFalse (fun hc => by cases hc; exact h rfl)
    | .ok _, .error _ => .isFalse (fun hc => by cases hc)
    | .error _, .ok _ => .isFalse (fun hc => by cases hc)

/-- Python `str.upper()` on ASCII text: uppercase every character
(`Char.toUpper` shifts `a`-`z` to `A`-`Z` and fixes everything else). -/
def pyUpper (s : String) : String :=
  ⟨s.data.map Char.toUpper⟩

/-- The dict literal in `SlurmRestAPIExecutor._map_slurm_state_to_psij`
(slurmrestd.py lines 133-144). -/
def slurm_state_table : List (String × JobState) :=
  [("PENDING", .QUEUED),
   ("CONFIGURING", .NEW),
   ("RUNNING", .ACTIVE),
   ("COMPLETED", .COMPLETED),
   ("CANCELLED", .CANCELED),
   ("FAILED", .FAILED),
   ("TIMEOUT", .FAILED),
   ("PREEMPTED", .FAILED),
   ("NODE_FAIL", .FAILED),
   ("SUSPENDED", .CANCELED)]

/-- `SlurmRestAPIExecutor._map_slurm_state_to_psij` (slurmrestd.py lines
129-148): `mapping.get(slurm_state.upper(), None)`, then
`if not ret: raise Exception(...)` — so every unmapped code raises. -/
def _map_slurm_state_to_psij (slurm_state : String) : Except String JobState :=
  match slurm_state_table.lookup (pyUpper slurm_state) with
  | some ret => .ok ret
  | none => .error ("Invalid job status code: " ++ slurm_state)

/-- The dict literal in `NERSCExecutor._map_nersc_state_to_psij`
(nersc.py lines 223-233). -/
def nersc_state_table : List (String × JobState) :=
  [("PENDING", .QUEUED),
   ("RUNNING", .ACTIVE),
   ("COMPLETED", .COMPLETED),
   ("CANCELLED", .CANCELED),
   ("FAILED", .FAILED),
   ("TIMEOUT", .FAILED),
   ("PREEMPTED", .FAILED),
   ("NODE_FAIL", .FAILED),
   ("SUSPENDED", .QUEUED)]

/-- `NERSCExecutor._map_nersc_state_to_psij` (nersc.py lines 219-234):
`mapping.get(nersc_state.upper(), JobState.NEW)` — unmapped codes
default to NEW, never raising. -/
def _map_nersc_state_to_psij (nersc_state : String) : JobState :=
  (nersc_state_table.lookup (pyUpper nersc_state)).getD .NEW

/-- The dict literal in
`SuperfacilityAPIExecutor._map_superfacility_state_to_psij`
(sfapi.py lines 68-75). -/
def superfacility_state_table : List (String × JobState) :=
  [("PENDING", .QUEUED),
   ("RUNNING", .ACTIVE),
   ("COMPLETED", .COMPLETED),
   ("FAILED", .FAILED),
   ("CANCELLED", .CANCELED)]

/-- `SuperfacilityAPIExecutor._map_superfacility_state_to_psij`
(sfapi.py lines 67-76): `mapping.get(superfacility_state,
JobState.UNKNOWN)` — a case-SENSITIVE lookup (no `.upper()` call),
defaulting to UNKNOWN. -/
def _map_superfacility_state_to_psij (superfacility_state : String) : JobState :=
  (superfacility_state_table.lookup superfacility_state).getD .UNKNOWN

/-- The `time_limit` object of the Slurm submission request
(`SlurmV0041PostJobSubmitRequestJobsInnerTimeLimit(set=True, number=...)`). -/
structure SlurmTimeLimit : Type where
  set : Bool
  number : Nat
deriving DecidableEq, Repr

/-- The `job` object of the Slurm submission request
(`SlurmV0041PostJobSubmitRequestJob`, slurmrestd.py lines 56-64). -/
structure SlurmJobRequestJob : Type where
  nodes : String
  time_limit : SlurmTimeLimit
  current_working_directory : Option String
  environment : Option (List String)
  name : Option String
  script : Option String
deriving DecidableEq, Repr

/-- The request-building part of `SlurmRestAPIExecutor.submit`
(slurmrestd.py lines 47-65): default the spec, convert the duration to
whole minutes, default node_count to 1 when resources are absent, and
assemble the backend-native job object. -/
def buildSlurmSubmitRequest (job_spec : JobSpec) : SlurmJobRequestJob :=
  let total_minutes := job_spec.attributes.durationSeconds / 60
  let node_count :=
    match job_spec.resources with
    | some r => r.node_count
    | none => 1
  { nodes := toString node_count,
    time_limit := { set := true, number := total_minutes },
    current_working_directory := job_spec.directory,
    environment := job_spec.environment.map (List.map fun p => p.1 ++ "=" ++ p.2),
    name := job_spec.name,
    script := job_spec.executable }

/-- Decoded Slurm submission response: `response.job_id`. -/
structure SlurmSubmitResponse : Type where
  job_id : Nat
deriving DecidableEq, Repr

/-- `SlurmRestAPIExecutor.submit` (slurmrestd.py lines 44-77): builds the
request from `job.spec if job.spec else JobSpec()`, issues the RPC, and
on success sets `job._native_id = str(response.job_id)` and
`job.status = JobStatus(JobState.QUEUED)`; an `ApiException` is
re-raised as `Exception("Failed to submit job: ...")`.  Returned: the
built request alongside the raised-or-mutated-job outcome. -/
def SlurmRestAPIExecutor.submit (job : Job) (rpc : RpcOutcome SlurmSubmitResponse) :
    SlurmJobRequestJob × Except String Job :=
  let job_spec := job.spec.getD defaultJobSpec
  let job_request := buildSlurmSubmitRequest job_spec
  match rpc with
  | .ok resp =>
    (job_request,
     .ok { job with native_id := some (toString resp.job_id), status := ⟨.QUEUED⟩ })
  | .apiError e => (job_request, .error ("Failed to submit job: " ++ e))

/-- `SlurmRestAPIExecutor.cancel` (slurmrestd.py lines 79-90): only `if
job.native_id:` does it issue the delete RPC and set status CANCELED;
with no native_id it silently does nothing.  Second component: the
number of RPC calls made. -/
def SlurmRestAPIExecutor.cancel (job : Job) (rpc : RpcOutcome Unit) :
    Except String Job × Nat :=
  match job.native_id with
  | some nid =>
    match rpc with
    | .ok _ => (.ok { job with status := ⟨.CANCELED⟩ }, 1)
    | .apiError e => (.error ("Failed to cancel job " ++ nid ++ ": " ++ e), 1)
  | none => (.ok job, 0)

/-- The `job_state` field of a Slurm job record, which the backend may
give as a scalar string, a list of strings, or null. -/
inductive SlurmNativeState : Type where
  | null
  | scalar (s : String)
  | strs (l : List String)
deriving DecidableEq, Repr

/-- One entry of `response.jobs` in the Slurm describe response. -/
structure SlurmJobInfo : Type where
  job_state : SlurmNativeState
deriving DecidableEq, Repr

/-- Decoded Slurm describe response: `response.jobs`. -/
structure SlurmGetJobResponse : Type where
  jobs : List SlurmJobInfo
deriving DecidableEq, Repr

/-- Line 115 of slurmrestd.py, `state = job_info.job_state or ''`:
Python `or` replaces a falsy value (None, empty string, empty list)
with the empty string. -/
def slurmStateOrEmpty : SlurmNativeState → SlurmNativeState
  | .null => .scalar ""
  | .scalar s => if s = "" then .scalar "" else .scalar s
  | .strs l => if l = [] then .scalar "" else .strs l

/-- Python truthiness of the normalized state (`if state:` on line 116). -/
def slurmStateTruthy : SlurmNativeState → Bool
  | .null => false
  | .scalar s => s ≠ ""
  | .strs l => l ≠ []

/-- Line 120 of slurmrestd.py: `state[0] if isinstance(state, list) and
state else state if isinstance(state, str) else ''`. -/
def primarySlurmState : SlurmNativeState → String
  | .strs (x :: _) => x
  | .strs [] => ""
  | .scalar s => s
  | .null => ""

/-- `SlurmRestAPIExecutor._update_job_status` (slurmrestd.py lines
106-128): only `if job.native_id:` does it issue the describe RPC; an
`ApiException` is re-raised; with a non-empty `jobs` array the first
job's state is normalized, reduced to a primary code and mapped (a
mapper exception propagates — the `except` clause catches only
`ApiException`); an empty or falsy state is only logged.  Second
component: the number of RPC calls made. -/
def SlurmRestAPIExecutor.updateJobStatus (job : Job)
    (rpc : RpcOutcome SlurmGetJobResponse) : Except String Job × Nat :=
  match job.native_id with
  | none => (.ok job, 0)
  | some nid =>
    match rpc with
    | .apiError e =>
      (.error ("Failed to get job status for job " ++ nid ++ ": " ++ e), 1)
    | .ok resp =>
      match resp.jobs with
      | [] => (.ok job, 1)
      | job_info :: _ =>
        let state := slurmStateOrEmpty job_info.job_state
        if slurmStateTruthy state then
          match _map_slurm_state_to_psij (primarySlurmState state) with
          | .ok job_state => (.ok { job with status := ⟨job_state⟩ }, 1)
          | .error e => (.error e, 1)
        else
          (.ok job, 1)

/-- The form-encoded body the NERSC `submit` posts (nersc.py lines
69-76): every field is a hard-coded literal. -/
structure NerscSubmitBody : Type where
  isPath : String
  job : String
  args : String
  callbackTimeout : String
  callbackEmail : String
  callbackUrl : String
deriving DecidableEq, Repr

/-- The `data` dict of nersc.py lines 69-76, with `job_path =
"/home/suranap/hostname.sh"` and `callback_email =
"suranap@stanford.edu"` substituted: no field mentions the Job. -/
def nersc_submit_body : NerscSubmitBody :=
  { isPath := "true",
    job := "/home/suranap/hostname.sh",
    args := "",
    callbackTimeout := "0",
    callbackEmail := "suranap@stanford.edu",
    callbackUrl := "string" }

/-- Decoded NERSC submission response: `response_data.get("jobid")`. -/
structure NerscSubmitResponse : Type where
  jobid : Option String
deriving DecidableEq, Repr

/-- `NERSCExecutor.submit` (nersc.py lines 50-85): `self._check_job(job)`
(psij's base-class check, which raises when the job has no spec), then
posts the hard-coded body; `raise_for_status` re-raises HTTP errors; on
success only `job._native_id = response_data.get("jobid")` is assigned —
the status assignment only exists in commented-out code.  Returned: the
posted body alongside the mutated job. -/
def NERSCExecutor.submit (job : Job) (rpc : RpcOutcome NerscSubmitResponse) :
    Except String (NerscSubmitBody × Job) :=
  match job.spec with
  | none => .error "Missing specification"
  | some _ =>
    match rpc with
    | .ok resp => .ok (nersc_submit_body, { job with native_id := resp.jobid })
    | .apiError e => .error e

/-- `NERSCExecutor.cancel` (nersc.py lines 130-146): raises `"Job ID is
required for cancellation"` when native_id is absent, before any RPC;
otherwise issues the delete and `raise_for_status` re-raises HTTP
errors; the job's status is never assigned.  Second component: the
number of RPC calls made. -/
def NERSCExecutor.cancel (job : Job) (rpc : RpcOutcome Unit) :
    Except String Job × Nat :=
  match job.native_id with
  | none => (.error "Job ID is required for cancellation", 0)
  | some _ =>
    match rpc with
    | .ok _ => (.ok job, 1)
    | .apiError e => (.error e, 1)

/-- Decoded NERSC describe response: a JSON object whose `status` key
may be missing (`job_info.get("status", "UNKNOWN")`). -/
structure NerscJobInfo : Type where
  status : Option String
deriving DecidableEq, Repr

/-- `NERSCExecutor._update_job_status` (nersc.py lines 192-217): raises
`"Job ID is required to check status"` when native_id is absent, before
any RPC; an HTTP error is re-raised as `"Failed to get job status for
job ..."`; otherwise the `status` field (defaulted to `"UNKNOWN"` when
missing) is mapped and assigned.  Second component: the number of RPC
calls made. -/
def NERSCExecutor.updateJobStatus (job : Job) (rpc : RpcOutcome NerscJobInfo) :
    Except String Job × Nat :=
  match job.native_id with
  | none => (.error "Job ID is required to check status", 0)
  | some nid =>
    match rpc with
    | .apiError e =>
      (.error ("Failed to get job status for job " ++ nid ++ ": " ++ e), 1)
    | .ok job_info =>
      let nersc_state := job_info.status.getD "UNKNOWN"
      let job_state := _map_nersc_state_to_psij nersc_state
      (.ok { job with status := ⟨job_state⟩ }, 1)

/-- The body of the Superfacility submission
(`BodySubmitJobComputeJobsMachinePost(job=job_spec.script, is_path=False)`). -/
structure SfapiSubmitBody : Type where
  job : Option String
  is_path : Bool
deriving DecidableEq, Repr

/-- Decoded Superfacility submission response: `response.job_id`. -/
structure SfapiSubmitResponse : Type where
  job_id : String
deriving DecidableEq, Repr

/-- `SuperfacilityAPIExecutor.submit` (sfapi.py lines 32-45, the second,
effective definition): reads `job.spec.script` (an absent spec would
crash the attribute access), posts the body, and on success sets
native_id and status QUEUED.  Returned: the posted body alongside the
mutated job. -/
def SuperfacilityAPIExecutor.submit (job : Job) (rpc : RpcOutcome SfapiSubmitResponse) :
    Except String (SfapiSubmitBody × Job) :=
  match job.spec with
  | none => .error "AttributeError: NoneType object has no attribute script"
  | some job_spec =>
    let body : SfapiSubmitBody := { job := job_spec.script, is_path := false }
    match rpc with
    | .ok resp =>
      .ok (body, { job with native_id := some resp.job_id, status := ⟨.QUEUED⟩ })
    | .apiError e => .error e

/-- `SuperfacilityAPIExecutor.cancel` (sfapi.py lines 47-54): only `if
job.native_id:` does it issue the delete RPC and set status CANCELED;
with no native_id it silently does nothing.  Second component: the
number of RPC calls made. -/
def SuperfacilityAPIExecutor.cancel (job : Job) (rpc : RpcOutcome Unit) :
    Except String Job × Nat :=
  match job.native_id with
  | some _ =>
    match rpc with
    | .ok _ => (.ok { job with status := ⟨.CANCELED⟩ }, 1)
    | .apiError e => (.error e, 1)
  | none => (.ok job, 0)

/-- One registered backend/version configuration entry of
`BACKEND_CONFIGS` (backend.py lines 10-29). -/
structure BackendEntry : Type where
  cls : String
  url : String
  config_class : String
  verify_ssl : Option Bool
deriving DecidableEq, Repr

/-- `BACKEND_CONFIGS` (backend.py lines 10-29): backend name → version →
entry (the slurmrestd URL default from `os.getenv` is the literal
fallback `http://slurmrestd:9200`). -/
def BACKEND_CONFIGS : List (String × List (String × BackendEntry)) :=
  [("slac",
    [("v0.1.0",
      { cls := "psijd.executors.psij_slurmrestd.psij_slurmrestd.slurmrestd.SlurmRestAPIExecutor",
        url := "http://slurmrestd:9200",
        config_class := "psijd.executors.psij_slurmrestd.psij_slurmrestd.slurmrestd.SlurmRestAPIExecutorConfig",
        verify_ssl := some false })]),
   ("nersc",
    [("v0.1.0",
      { cls := "psijd.executors.psij_nersc.psij_nersc.nersc.NERSCExecutor",
        url := "https://api.nersc.gov/v1",
        config_class := "psijd.executors.psij_nersc.psij_nersc.nersc.NERSCExecutorConfig",
        verify_ssl := none })])]

/-- The error classifications raised by `get_executor` (backend.py):
`ValueError("Unknown backend: ...")`, `ValueError("Unknown version ...
for backend ...")`, and the `RuntimeError` for reflective-instantiation
failures. -/
inductive FactoryError : Type where
  | unknownBackend (backend : String)
  | unknownVersion (backend version : String)
  | instantiationError (msg : String)
deriving DecidableEq, Repr

/-- A constructed executor instance: the resolved class, URL, and the
token injected into its configuration. -/
structure ExecutorInstance : Type where
  cls : String
  url : String
  token : Option String
deriving DecidableEq, Repr

/-- `get_executor` (backend.py lines 31-80): unknown backend and
unknown version are rejected before anything is constructed; for a
registered pair the configured class is instantiated with the
caller-supplied access token placed into its config.  (The reflective
`importlib` machinery is modelled as succeeding for registered entries:
both registered class paths exist in the repository.) -/
def get_executor (backend version : String) (access_token : Option String) :
    Except FactoryError ExecutorInstance :=
  match BACKEND_CONFIGS.lookup backend with
  | none => .error (.unknownBackend backend)
  | some versions =>
    match versions.lookup version with
    | none => .error (.unknownVersion backend version)
    | some config => .ok { cls := config.cls, url := config.url, token := access_token }

/-- A sample job spec: node_count 3, 600-second duration. -/
def sampleSpec : JobSpec :=
  { name := some "api_test",
    executable := some "/usr/bin/sleep",
    script := some "#!/bin/bash\nhostname\n",
    directory := some "/tmp",
    environment := none,
    resources := some
      { node_count := 3, process_count := 1, processes_per_node := 1,
        cpu_cores_per_process := 1, gpu_cores_per_process := 0,
        exclusive_node_use := false },
    attributes := ⟨600⟩ }

/-- A freshly constructed job: no native_id yet, state NEW. -/
def jNoId : Job := { native_id := none, status := ⟨.NEW⟩, spec := some sampleSpec }

/-- A job already bound to backend job 42. -/
def jWithId : Job := { native_id := some "42", status := ⟨.QUEUED⟩, spec := some sampleSpec }

example : _map_slurm_state_to_psij "pending" = .ok .QUEUED := by decide
example : _map_slurm_state_to_psij "RESIZING" =
    .error "Invalid job status code: RESIZING" := by decide
example : _map_nersc_state_to_psij "whatever" = .NEW := by decide
example : _map_superfacility_state_to_psij "pending" = .UNKNOWN := by decide
example : SlurmRestAPIExecutor.cancel jNoId (.ok ()) = (.ok jNoId, 0) := by decide
example : (SlurmRestAPIExecutor.submit jNoId (.ok ⟨7⟩)).1.nodes = "3" := by decide
example : (SlurmRestAPIExecutor.submit jNoId (.ok ⟨7⟩)).1.time_limit.number = 10 := by decide
example : get_executor "unknown" "v0.1.0" none = .error (.unknownBackend "unknown") := by decide
example :
    SlurmRestAPIExecutor.updateJobStatus jWithId (.ok ⟨[⟨.strs ["RUNNING", "X"]⟩]⟩) =
      (.ok { jWithId with status := ⟨.ACTIVE⟩ }, 1) := by decide

theorem char_toNat_ofNat_of_valid {n : Nat} (h : n < 0xd800) :
    (Char.ofNat n).toNat = n := by
  have hv : Nat.isValidChar n := Or.inl h
  rw [Char.ofNat, dif_pos hv]
  rfl

theorem char_toUpper_toNat (c : Char) :
    c.toUpper.toNat = if 97 ≤ c.toNat ∧ c.toNat ≤ 122 then c.toNat - 32 else c.toNat := by
  show (if c.toNat ≥ 97 ∧ c.toNat ≤ 122 then Char.ofNat (c.toNat - 32) else c).toNat = _
  by_cases h : 97 ≤ c.toNat ∧ c.toNat ≤ 122
  · rw [if_pos h, if_pos h, char_toNat_ofNat_of_valid (by omega)]
  · rw [if_neg h, if_neg h]

theorem char_toUpper_idem (c : Char) : c.toUpper.toUpper = c.toUpper := by
  show (if c.toUpper.toNat ≥ 97 ∧ c.toUpper.toNat ≤ 122
        then Char.ofNat (c.toUpper.toNat - 32) else c.toUpper) = c.toUpper
  rw [if_neg]
  rw [char_toUpper_toNat]
  by_cases h : 97 ≤ c.toNat ∧ c.toNat ≤ 122
  · rw [if_pos h]; omega
  · rw [if_neg h]; omega

theorem pyUpper_idem (s : String) : pyUpper (pyUpper s) = pyUpper s := by
  unfold pyUpper
  refine congrArg String.mk ?_
  show (s.data.map Char.toUpper).map Char.toUpper = s.data.map Char.toUpper
  rw [List.map_map]
  exact List.map_congr_left fun c _ => char_toUpper_idem c

/-- Claim C1 is false as stated: "RESIZING" is a syntactically valid,
non-empty native Slurm state code absent from the Slurm mapping table,
yet the Slurm mapper raises (`Exception("Invalid job status code:
...")`) instead of returning a default abstract state. -/
theorem C1_counterexample :
    slurm_state_table.lookup (pyUpper "RESIZING") = none ∧
    _map_slurm_state_to_psij "RESIZING" =
      .error "Invalid job status code: RESIZING" := by decide

/-- Claim C1, amended: for every state code, per mapper — a code absent
from the NERSC table returns the default NEW, and a code absent from
the Superfacility table returns the default UNKNOWN, never raising,
even for an empty or malformed input; a code absent from the Slurm
table instead makes the Slurm mapper raise "Invalid job status code",
whether the code is well-formed or empty.  Each conjunct assumes only
absence from that mapper's own table. -/
theorem C1_unmapped_code_defaults_amended (s : String) :
    (slurm_state_table.lookup (pyUpper s) = none →
       _map_slurm_state_to_psij s = .error ("Invalid job status code: " ++ s)) ∧
    (nersc_state_table.lookup (pyUpper s) = none →
       _map_nersc_state_to_psij s = .NEW) ∧
    (superfacility_state_table.lookup s = none →
       _map_superfacility_state_to_psij s = .UNKNOWN) := by
  unfold _map_slurm_state_to_psij _map_nersc_state_to_psij
    _map_superfacility_state_to_psij
  refine ⟨fun hs => ?_, fun hn => ?_, fun hf => ?_⟩
  · rw [hs]
  · rw [hn]; rfl
  · rw [hf]; rfl

/-- Witness for C1's amended theorem, one concrete instance per mapper:
"RESIZING" is unmapped everywhere; "CONFIGURING" sits in the Slurm table
but not the NERSC one; "TIMEOUT" and the lowercase "pending" sit in the
Slurm table (after uppercasing) but not the case-sensitive
Superfacility one. -/
theorem C1_amended_witness :
    _map_slurm_state_to_psij "RESIZING" =
      .error ("Invalid job status code: " ++ "RESIZING") ∧
    _map_nersc_state_to_psij "CONFIGURING" = .NEW ∧
    _map_superfacility_state_to_psij "TIMEOUT" = .UNKNOWN ∧
    _map_superfacility_state_to_psij "pending" = .UNKNOWN :=
  ⟨(C1_unmapped_code_defaults_amended "RESIZING").1 (by decide),
   (C1_unmapped_code_defaults_amended "CONFIGURING").2.1 (by decide),
   (C1_unmapped_code_defaults_amended "TIMEOUT").2.2 (by decide),
   (C1_unmapped_code_defaults_amended "pending").2.2 (by decide)⟩

/-- Claim C2 is false as stated: the NERSC adapter's submit, on a
successful submission RPC returning native id "12345", sets native_id
but leaves the job's status at NEW — the `status = QUEUED` assignment
exists only in commented-out code. -/
theorem C2_counterexample :
    NERSCExecutor.submit jNoId (.ok ⟨some "12345"⟩) =
      .ok (nersc_submit_body,
           { native_id := some "12345", status := ⟨.NEW⟩, spec := some sampleSpec }) ∧
    JobState.NEW ≠ JobState.QUEUED := by decide

/-- Claim C2, amended: on submission success the Slurm adapter sets
native_id to `str(response.job_id)` and status to QUEUED, and the
Superfacility adapter sets native_id to the response's job_id and
status to QUEUED; the NERSC adapter sets only native_id (to the
response's "jobid" field) and leaves the status unchanged. -/
theorem C2_submit_success_amended (job : Job) (spec : JobSpec)
    (srsp : SlurmSubmitResponse) (frsp : SfapiSubmitResponse)
    (nrsp : NerscSubmitResponse) (hspec : job.spec = some spec) :
    (SlurmRestAPIExecutor.submit job (.ok srsp)).2 =
      .ok { job with native_id := some (toString srsp.job_id), status := ⟨.QUEUED⟩ } ∧
    SuperfacilityAPIExecutor.submit job (.ok frsp) =
      .ok ({ job := spec.script, is_path := false },
           { job with native_id := some frsp.job_id, status := ⟨.QUEUED⟩ }) ∧
    NERSCExecutor.submit job (.ok nrsp) =
      .ok (nersc_submit_body, { job with native_id := nrsp.jobid }) := by
  refine ⟨rfl, ?_, ?_⟩ <;>
    simp [SuperfacilityAPIExecutor.submit, NERSCExecutor.submit, hspec]

/-- Witness for C2's amended theorem on a fresh job with a spec. -/
theorem C2_amended_witness :
    (SlurmRestAPIExecutor.submit jNoId (.ok ⟨7⟩)).2 =
      .ok { jNoId with native_id := some (toString 7), status := ⟨.QUEUED⟩ } ∧
    SuperfacilityAPIExecutor.submit jNoId (.ok ⟨"task99"⟩) =
      .ok ({ job := sampleSpec.script, is_path := false },
           { jNoId with native_id := some "task99", status := ⟨.QUEUED⟩ }) ∧
    NERSCExecutor.submit jNoId (.ok ⟨some "12345"⟩) =
      .ok (nersc_submit_body, { jNoId with native_id := some "12345" }) :=
  C2_submit_success_amended jNoId sampleSpec ⟨7⟩ ⟨"task99"⟩ ⟨some "12345"⟩ rfl

/-- Claim C3 is false as stated: the Slurm mapper sends CONFIGURING to
NEW (the claim's table lists QUEUED) and SUSPENDED to CANCELED (the
claim's table lists QUEUED). -/
theorem C3_counterexample :
    _map_slurm_state_to_psij "CONFIGURING" = .ok JobState.NEW ∧
    _map_slurm_state_to_psij "SUSPENDED" = .ok JobState.CANCELED ∧
    JobState.NEW ≠ JobState.QUEUED ∧
    JobState.CANCELED ≠ JobState.QUEUED := by decide

/-- Claim C3, amended: each mapper is total on its own documented
vocabulary, sending each code to exactly the one state its table lists.
The actual tables differ from the spec's template in two places: the
Slurm mapper sends CONFIGURING to NEW and SUSPENDED to CANCELED, while
the NERSC mapper sends SUSPENDED to QUEUED and has no CONFIGURING entry
(so CONFIGURING falls through to the NEW default); the remaining
template rows (PENDING to QUEUED, RUNNING to ACTIVE, COMPLETED to
COMPLETED, FAILED/TIMEOUT/PREEMPTED/NODE_FAIL to FAILED, CANCELLED to
CANCELED) hold for both. -/
theorem C3_mapping_table_amended :
    (∀ p ∈ slurm_state_table, _map_slurm_state_to_psij p.1 = .ok p.2) ∧
    (∀ p ∈ nersc_state_table, _map_nersc_state_to_psij p.1 = p.2) ∧
    (∀ p ∈ superfacility_state_table, _map_superfacility_state_to_psij p.1 = p.2) ∧
    _map_slurm_state_to_psij "PENDING" = .ok .QUEUED ∧
    _map_slurm_state_to_psij "CONFIGURING" = .ok .NEW ∧
    _map_slurm_state_to_psij "SUSPENDED" = .ok .CANCELED ∧
    _map_slurm_state_to_psij "RUNNING" = .ok .ACTIVE ∧
    _map_slurm_state_to_psij "COMPLETED" = .ok .COMPLETED ∧
    _map_slurm_state_to_psij "FAILED" = .ok .FAILED ∧
    _map_slurm_state_to_psij "TIMEOUT" = .ok .FAILED ∧
    _map_slurm_state_to_psij "PREEMPTED" = .ok .FAILED ∧
    _map_slurm_state_to_psij "NODE_FAIL" = .ok .FAILED ∧
    _map_slurm_state_to_psij "CANCELLED" = .ok .CANCELED ∧
    _map_nersc_state_to_psij "SUSPENDED" = .QUEUED ∧
    _map_nersc_state_to_psij "CONFIGURING" = .NEW := by decide

/-- Claim C4 is false as stated: on a job with no native_id, the Slurm
and Superfacility cancel implementations perform zero RPC calls and
leave the job unchanged, but they return success instead of failing
with a MissingNativeId classification. -/
theorem C4_counterexample :
    SlurmRestAPIExecutor.cancel jNoId (.ok ()) = (.ok jNoId, 0) ∧
    SuperfacilityAPIExecutor.cancel jNoId (.ok ()) = (.ok jNoId, 0) := by decide

/-- Claim C4, amended: on a job with no native_id every adapter's cancel
performs zero RPC calls and leaves the job unchanged, but only the
NERSC adapter fails (raising "Job ID is required for cancellation");
the Slurm and Superfacility adapters silently return success. -/
theorem C4_cancel_missing_native_id_amended (job : Job)
    (h : job.native_id = none) :
    (∀ rpc, NERSCExecutor.cancel job rpc =
       (.error "Job ID is required for cancellation", 0)) ∧
    (∀ rpc, SlurmRestAPIExecutor.cancel job rpc = (.ok job, 0)) ∧
    (∀ rpc, SuperfacilityAPIExecutor.cancel job rpc = (.ok job, 0)) := by
  refine ⟨fun rpc => ?_, fun rpc => ?_, fun rpc => ?_⟩ <;>
    simp [NERSCExecutor.cancel, SlurmRestAPIExecutor.cancel,
      SuperfacilityAPIExecutor.cancel, h]

/-- Witness for C4's amended theorem at a concrete job with no
native_id. -/
theorem C4_amended_witness :
    NERSCExecutor.cancel jNoId (.ok ()) =
      (.error "Job ID is required for cancellation", 0) ∧
    SlurmRestAPIExecutor.cancel jNoId (.apiError "boom") = (.ok jNoId, 0) :=
  ⟨(C4_cancel_missing_native_id_amended jNoId rfl).1 (.ok ()),
   (C4_cancel_missing_native_id_amended jNoId rfl).2.1 (.apiError "boom")⟩

/-- Claim C5 is false as stated: on a job with no native_id the Slurm
poll-status implementation performs zero RPC calls and returns success
with the job unchanged, instead of failing with a StatusUnavailable
classification. -/
theorem C5_counterexample :
    SlurmRestAPIExecutor.updateJobStatus jNoId (.ok ⟨[]⟩) = (.ok jNoId, 0) := by
  decide

/-- Claim C5, amended: when the describe RPC fails both the NERSC and
Slurm poll-status implementations fail with a "Failed to get job
status" classification; when native_id is absent the NERSC
implementation fails ("Job ID is required to check status") with zero
RPC calls, but the Slurm implementation silently returns success with
zero RPC calls; and a NERSC job record lacking its status field does
not crash the poll — the missing field defaults to "UNKNOWN", which
maps to NEW. -/
theorem C5_poll_status_amended (job : Job) (nid e : String) :
    (job.native_id = none →
       (∀ rpc, NERSCExecutor.updateJobStatus job rpc =
          (.error "Job ID is required to check status", 0)) ∧
       (∀ rpc, SlurmRestAPIExecutor.updateJobStatus job rpc = (.ok job, 0))) ∧
    (job.native_id = some nid →
       NERSCExecutor.updateJobStatus job (.apiError e) =
         (.error ("Failed to get job status for job " ++ nid ++ ": " ++ e), 1) ∧
       SlurmRestAPIExecutor.updateJobStatus job (.apiError e) =
         (.error ("Failed to get job status for job " ++ nid ++ ": " ++ e), 1) ∧
       NERSCExecutor.updateJobStatus job (.ok ⟨none⟩) =
         (.ok { job with status := ⟨.NEW⟩ }, 1)) := by
  have hmap : _map_nersc_state_to_psij "UNKNOWN" = .NEW := by decide
  constructor
  · intro h
    refine ⟨fun rpc => ?_, fun rpc => ?_⟩ <;>
      simp [NERSCExecutor.updateJobStatus, SlurmRestAPIExecutor.updateJobStatus, h]
  · intro h
    refine ⟨?_, ?_, ?_⟩ <;>
      simp [NERSCExecutor.updateJobStatus, SlurmRestAPIExecutor.updateJobStatus,
        h, hmap]

/-- Claim C6: resolution of an unregistered (backend, version) pair
fails before anything is constructed — with the UnknownBackend
classification when the backend name is not registered, and with the
UnknownVersion classification when the backend is registered but the
version is not; an error return carries no executor instance. -/
theorem C6_factory_unregistered (backend version : String) (tok : Option String) :
    (BACKEND_CONFIGS.lookup backend = none →
       get_executor backend version tok = .error (.unknownBackend backend)) ∧
    (∀ versions, BACKEND_CONFIGS.lookup backend = some versions →
       versions.lookup version = none →
       get_executor backend version tok = .error (.unknownVersion backend version)) := by
  constructor
  · intro h
    simp [get_executor, h]
  · intro versions h1 h2
    simp [get_executor, h1, h2]

/-- Witness for C6 at the spec's own scenario (backend "unknown") and at
an unregistered version of the registered backend "slac". -/
theorem C6_witness :
    get_executor "unknown" "v0.1.0" none = .error (.unknownBackend "unknown") ∧
    get_executor "slac" "v9.9.9" none = .error (.unknownVersion "slac" "v9.9.9") :=
  ⟨(C6_factory_unregistered "unknown" "v0.1.0" none).1 (by decide),
   (C6_factory_unregistered "slac" "v9.9.9" none).2 _ rfl (by decide)⟩

/-- Claim C7: when the Slurm describe response reports the first job's
native state as a non-empty list, poll-status reduces it to the first
element of the list and passes exactly that element to the state
mapper (the remaining elements and the remaining job records are
ignored). -/
theorem C7_list_state_first_element (job : Job) (nid x : String)
    (xs : List String) (rest : List SlurmJobInfo)
    (h : job.native_id = some nid) :
    SlurmRestAPIExecutor.updateJobStatus job (.ok ⟨⟨.strs (x :: xs)⟩ :: rest⟩) =
      (match _map_slurm_state_to_psij x with
       | .ok st => (.ok { job with status := ⟨st⟩ }, 1)
       | .error e => (.error e, 1)) := by
  simp [SlurmRestAPIExecutor.updateJobStatus, h, slurmStateOrEmpty,
    slurmStateTruthy, primarySlurmState]

/-- Witness for C7: a two-element list state `["PENDING",
"JOB_ARRAY_TASK_LIMIT"]` is reduced to "PENDING", which maps to
QUEUED. -/
theorem C7_witness :
    SlurmRestAPIExecutor.updateJobStatus jWithId
        (.ok ⟨[⟨.strs ["PENDING", "JOB_ARRAY_TASK_LIMIT"]⟩]⟩) =
      (.ok { jWithId with status := ⟨.QUEUED⟩ }, 1) :=
  (C7_list_state_first_element jWithId "42" "PENDING" ["JOB_ARRAY_TASK_LIMIT"]
    [] rfl).trans (by decide)

/-- Claim C8 is false as stated: the Superfacility mapper looks its
input up case-sensitively (no `.upper()` call), so "pending" falls
through to UNKNOWN while its uppercase variant maps to QUEUED. -/
theorem C8_counterexample :
    _map_superfacility_state_to_psij "pending" = JobState.UNKNOWN ∧
    _map_superfacility_state_to_psij (pyUpper "pending") = JobState.QUEUED ∧
    JobState.UNKNOWN ≠ JobState.QUEUED := by decide

/-- Claim C8, amended: the Slurm and NERSC mappers are case-insensitive
— the NERSC mapper returns identical states for any case variant, and
the Slurm mapper returns the same abstract state (or raises in both
cases; only the raised message echoes the original spelling) — while
the Superfacility mapper is case-sensitive. -/
theorem C8_case_insensitive_amended (s : String) :
    (_map_slurm_state_to_psij s).toOption =
      (_map_slurm_state_to_psij (pyUpper s)).toOption ∧
    _map_nersc_state_to_psij s = _map_nersc_state_to_psij (pyUpper s) := by
  unfold _map_slurm_state_to_psij _map_nersc_state_to_psij
  rw [pyUpper_idem]
  constructor
  · cases slurm_state_table.lookup (pyUpper s) <;> rfl
  · rfl

/-- Claim C9: the Slurm adapter's submit builds a backend-native payload
whose `nodes` field is the decimal string of the spec's node_count and
whose `time_limit` is the spec's duration converted to whole minutes
(`total_seconds() // 60`), regardless of the RPC outcome. -/
theorem C9_slurm_payload (job : Job) (spec : JobSpec) (r : ResourceSpec)
    (n d : Nat) (rpc : RpcOutcome SlurmSubmitResponse)
    (hspec : job.spec = some spec) (hr : spec.resources = some r)
    (hn : r.node_count = n) (hd : spec.attributes.durationSeconds = d) :
    (SlurmRestAPIExecutor.submit job rpc).1.nodes = toString n ∧
    (SlurmRestAPIExecutor.submit job rpc).1.time_limit =
      { set := true, number := d / 60 } := by
  cases rpc <;>
    simp [SlurmRestAPIExecutor.submit, buildSlurmSubmitRequest, hspec, hr, hn, hd]

/-- Witness for C9: node_count 3 yields nodes "3"; a 600-second duration
yields a 10-minute time limit. -/
theorem C9_witness :
    (SlurmRestAPIExecutor.submit jNoId (.ok ⟨7⟩)).1.nodes = toString 3 ∧
    (SlurmRestAPIExecutor.submit jNoId (.ok ⟨7⟩)).1.time_limit =
      { set := true, number := 600 / 60 } :=
  C9_slurm_payload jNoId sampleSpec
    { node_count := 3, process_count := 1, processes_per_node := 1,
      cpu_cores_per_process := 1, gpu_cores_per_process := 0,
      exclusive_node_use := false }
    3 600 (.ok ⟨7⟩) rfl rfl rfl rfl

theorem nersc_submit_ok_body {j : Job} {r : RpcOutcome NerscSubmitResponse}
    {b : NerscSubmitBody} {o : Job}
    (h : NERSCExecutor.submit j r = .ok (b, o)) : b = nersc_submit_body := by
  unfold NERSCExecutor.submit at h
  cases hs : j.spec with
  | none => rw [hs] at h; cases h
  | some sp =>
    rw [hs] at h
    cases r with
    | ok resp =>
      simp only [Except.ok.injEq, Prod.mk.injEq] at h
      exact h.1.symm
    | apiError e => cases h

/-- Claim C10: whenever two NERSC submit calls each reach the submission
POST (whatever the two jobs' specs, resources and attributes are), the
bodies they post are identical — both equal the hard-coded
`nersc_submit_body` (fixed script path, empty args, fixed callback
fields) — so the submission payload does not depend on the job. -/
theorem C10_nersc_body_job_independent (j1 j2 : Job)
    (r1 r2 : RpcOutcome NerscSubmitResponse) (b1 b2 : NerscSubmitBody)
    (o1 o2 : Job)
    (h1 : NERSCExecutor.submit j1 r1 = .ok (b1, o1))
    (h2 : NERSCExecutor.submit j2 r2 = .ok (b2, o2)) :
    b1 = b2 ∧ b1 = nersc_submit_body :=
  ⟨(nersc_submit_ok_body h1).trans (nersc_submit_ok_body h2).symm,
   nersc_submit_ok_body h1⟩

/-- Witness for C10: two submissions of jobs with different specs and
different backend responses posted the same hard-coded body. -/
theorem C10_witness :
    nersc_submit_body = nersc_submit_body ∧
    nersc_submit_body = nersc_submit_body :=
  C10_nersc_body_job_independent jNoId jWithId (.ok ⟨some "1"⟩) (.ok ⟨some "2"⟩)
    nersc_submit_body nersc_submit_body
    { jNoId with native_id := some "1" } { jWithId with native_id := some "2" }
    (by decide) (by decide)
